import Mathlib

/-!
# Verification of the `eos-scan-mc` command-line driver

Shallow embedding of `src/clients/eos-scan-mc.cc` (the EOS Markov-chain
sampler client): the `CommandLine` singleton's state, the per-option
handlers of `CommandLine::parse`, and the post-parse control flow of
`main` up to the construction of the `MarkovChainSampler`.

Modelling conventions:
* C++ `double` values are modelled as `ℚ` (the option values the claims
  concern are compared, scaled and clamped exactly; no rounding enters
  the properties at issue).
* The argument vector is modelled after tokenisation: each command-line
  option, together with the value tokens its handler consumes via
  `destringify`, becomes one constructor of `Arg`.  A `destringify`
  failure aborts the run before the handler logic runs and is outside
  this model.
* `throw DoUsage(msg)` is modelled as `Except.error (ParseError.doUsage msg)`;
  the out-of-range exception of `std::vector::at` in `main` as
  `MainError.outOfRange` (it is caught by `catch (...)`, not as a usage
  error).
* Error-message strings follow the source with contractions expanded
  and inner quoting dropped (`Can not` for the source's contracted
  form, `to name` for `to 'name'`); no other wording changes.
-/

/-- One entry of a partition: a `(parameter name, min, max)` triple,
as assembled by the `--partition` handler. -/
structure PartitionEntry where
  name : String
  min : ℚ
  max : ℚ
deriving DecidableEq, Repr

/-- A partition is an ordered list of `(name, min, max)` triples
(`std::vector<std::tuple<std::string, double, double>>`). -/
abbrev Partition := List PartitionEntry

/-- A log-prior, as built by the `--scan`/`--nuisance`/`--discrete`
handlers (`LogPrior::Gauss`, `LogPrior::LogGamma`, `LogPrior::Flat`,
`LogPrior::Discrete`).  Only the data the client passes in is recorded;
the density itself is outside the client. -/
inductive LogPrior where
  | gauss (name : String) (rangeMin rangeMax lower central upper : ℚ)
  | logGamma (name : String) (rangeMin rangeMax lower central upper : ℚ)
  | flat (name : String) (rangeMin rangeMax : ℚ)
  | discrete (name : String) (values : List ℚ)
deriving DecidableEq, Repr

/-- The name of the parameter a prior governs. -/
def LogPrior.paramName : LogPrior → String
  | .gauss n _ _ _ _ _ => n
  | .logGamma n _ _ _ _ _ => n
  | .flat n _ _ => n
  | .discrete n _ => n

/-- The fields of `MarkovChainSampler::Config` that `eos-scan-mc.cc`
reads or writes. -/
structure MCSConfig where
  number_of_chains : ℕ
  need_prerun : Bool
  need_main_run : Bool
  chunk_size : ℕ
  chunks : ℕ
  parallelize : Bool
  use_strict_rvalue_definition : Bool
  store_prerun : Bool
  store_observables_and_proposals : Bool
  find_modes : Bool
  prerun_chains_per_partition : ℕ
  prerun_iterations_min : ℕ
  prerun_iterations_max : ℕ
  prerun_iterations_update : ℕ
  scale_reduction : ℚ
  proposal : String
  student_t_degrees_of_freedom : ℚ
  seed : ℕ
  output_file : String
  partitions : List Partition
  block_proposal_parameters : List String
deriving DecidableEq, Repr

/-- Modelled from the spec: `MarkovChainSampler::Config::Quick()` lives in
the sampler library, not in this client.  Per the spec's Config description
a fresh configuration runs both phases and stores nothing extra, so the
fields the client does not overwrite in its constructor default to that;
the numeric tuning defaults are irrelevant to the claims. -/
def MCSConfig.quick : MCSConfig where
  number_of_chains := 1
  need_prerun := true
  need_main_run := true
  chunk_size := 100
  chunks := 1
  parallelize := false
  use_strict_rvalue_definition := false
  store_prerun := false
  store_observables_and_proposals := false
  find_modes := false
  prerun_chains_per_partition := 1
  prerun_iterations_min := 0
  prerun_iterations_max := 0
  prerun_iterations_update := 0
  scale_reduction := 1
  proposal := "MultivariateGaussian"
  student_t_degrees_of_freedom := 1
  seed := 0
  output_file := ""
  partitions := []
  block_proposal_parameters := []

/-- One `ParameterData` record (`struct ParameterData`): the parameter
name, the (possibly narrowed) range and the prior type string. -/
structure ParameterData where
  name : String
  min : ℚ
  max : ℚ
  prior : String
deriving DecidableEq, Repr

/-- The mutable state of the `CommandLine` singleton, as touched by
`parse` and read by `main`.  `analysis_priors` models the `Analysis`
accumulation through `analysis.add(prior, nuisance)`; `inputs` and
`constraints` keep only what `main` reads (their count).  -/
structure CommandLineState where
  config : MCSConfig
  scan_parameters : List ParameterData
  nuisance_parameters : List ParameterData
  analysis_priors : List (LogPrior × Bool)
  inputs : ℕ
  constraints : ℕ
  fixed : List (String × ℚ)
  kinematics : List (String × ℚ)
  global_options : List (String × String)
  partition_index : Option ℕ
  resume_file : String
  massive_mode_finding : Bool
  massive_maximum_iterations : ℕ
  optimize : Bool
  starting_point : List ℚ
  goodness_of_fit : Bool
  best_fit_point : List ℚ
deriving DecidableEq, Repr

/-- The `CommandLine` constructor: `Config::Quick()` then the explicit
overrides (4 chains, prerun on, chunk size 1000, parallel, strict
r-value definition), `massive_mode_finding(false)`,
`massive_maximum_iterations(2000)`, `optimize(false)`. -/
def initialState : CommandLineState where
  config := { MCSConfig.quick with
    number_of_chains := 4
    need_prerun := true
    chunk_size := 1000
    parallelize := true
    use_strict_rvalue_definition := true }
  scan_parameters := []
  nuisance_parameters := []
  analysis_priors := []
  inputs := 0
  constraints := 0
  fixed := []
  kinematics := []
  global_options := []
  partition_index := none
  resume_file := ""
  massive_mode_finding := false
  massive_maximum_iterations := 2000
  optimize := false
  starting_point := []
  goodness_of_fit := false
  best_fit_point := []

/-- Errors thrown while parsing: `DoUsage` with its message, the
`VerifiedRange` exception for a number-of-sigmas outside `[0, 10]`
(thrown by `VerifiedRange<double>(0, 10, ...)` from the eos utilities),
and `abort()` from `--print-args`. -/
inductive ParseError where
  | doUsage (what : String)
  | verifiedRange
  | aborted
deriving DecidableEq, Repr

/-- Errors of the post-parse part of `main`: `DoUsage`, and the
`std::out_of_range` thrown by `temp.at(*i)` during partition selection,
which `main` only catches via `catch (...)`. -/
inductive MainError where
  | doUsage (what : String)
  | outOfRange
deriving DecidableEq, Repr

/-- The partition-selection block of `main` ("remove unwanted
partitions and select only one"): if a partition index was given, an
empty partition list is a `DoUsage` error; otherwise the list is
replaced by the singleton `[partitions.at i]`, `at` throwing
out-of-range when `i` is invalid. -/
def selectPartitions (partition_index : Option ℕ) (partitions : List Partition) :
    Except MainError (List Partition) :=
  match partition_index with
  | none => .ok partitions
  | some i =>
    if partitions.isEmpty then
      .error (.doUsage ("Can not select partition " ++ toString i ++ " from no partitions!"))
    else
      match partitions.get? i with
      | none => .error .outOfRange
      | some p => .ok [p]

/-- How the post-parse part of `main` ends when no exception escapes:
the optimizer branch (recording whether the goodness-of-fit follow-up
runs), the standalone goodness-of-fit branch, or one of the two
branches that construct a `MarkovChainSampler` — massive mode finding
or `sampler.run()` — each carrying the partition list the sampler
receives. -/
inductive MainOutcome where
  | optimized (ranGoodnessOfFit : Bool)
  | goodnessOfFit
  | massiveModeFinding (partitions : List Partition)
  | sampled (partitions : List Partition)
deriving DecidableEq, Repr

/-- Whether an outcome constructed the `MarkovChainSampler`. -/
def MainOutcome.constructsSampler : MainOutcome → Bool
  | .optimized _ => false
  | .goodnessOfFit => false
  | .massiveModeFinding _ => true
  | .sampled _ => true

/-- The three token shapes a `--scan`/`--nuisance` option can take
before `--prior` (comment in the source: `N_SIGMAS in [0, 10]`):
(a) `PAR N_SIGMAS`, (b) `PAR MIN MAX`, (c) `PAR HARD_MIN HARD_MAX N_SIGMAS`. -/
inductive ScanSpec where
  | sigmasOnly (n : ℚ)
  | bounds (min max : ℚ)
  | boundsSigmas (min max n : ℚ)
deriving DecidableEq, Repr

/-- Names of the parameters already added to the analysis;
`analysis.add(prior, nuisance)` returns false when the prior's
parameter is already among them. -/
def CommandLineState.analysisNames (st : CommandLineState) : List String :=
  st.analysis_priors.map fun pn => pn.1.paramName

/-- The tail of the `--scan`/`--nuisance` handler, from `--prior`
onward: dispatch on the prior-type token.  For `gaussian`/`log-gamma`
the range is adjusted when `n_sigmas > 0` — "adjust range, but always
stay within hard bound supplied by the user":
`range.min = max(range.min, central - n_sigmas * (central - lower))`,
`range.max = min(range.max, central + n_sigmas * (upper - central))`.
A `flat` prior with `n_sigmas > 0` and an unknown prior type are
`DoUsage` errors; otherwise the `ParameterData` record is pushed and the
prior is added to the analysis, failing with `DoUsage` when the
parameter is already declared.  (The source pushes the record before
checking `analysis.add`; since the thrown error ends the run, checking
first is observably identical.) -/
def scanPrior (st : CommandLineState) (isNuisance : Bool) (name : String)
    (min max nSigmas : ℚ) (priorType : String) (lower central upper : ℚ) :
    Except ParseError CommandLineState :=
  if priorType = "gaussian" ∨ priorType = "log-gamma" then
    let rangeMin :=
      if 0 < nSigmas then Max.max min (central - nSigmas * (central - lower)) else min
    let rangeMax :=
      if 0 < nSigmas then Min.min max (central + nSigmas * (upper - central)) else max
    let prior :=
      if priorType = "gaussian" then LogPrior.gauss name rangeMin rangeMax lower central upper
      else LogPrior.logGamma name rangeMin rangeMax lower central upper
    if name ∈ st.analysisNames then
      .error (.doUsage ("Error in assigning " ++ priorType ++ " prior distribution to " ++ name))
    else if isNuisance then
      .ok { st with
              nuisance_parameters :=
                st.nuisance_parameters ++ [(⟨name, rangeMin, rangeMax, priorType⟩ : ParameterData)]
              analysis_priors := st.analysis_priors ++ [(prior, isNuisance)] }
    else
      .ok { st with
              scan_parameters :=
                st.scan_parameters ++ [(⟨name, rangeMin, rangeMax, priorType⟩ : ParameterData)]
              analysis_priors := st.analysis_priors ++ [(prior, isNuisance)] }
  else if priorType = "flat" then
    if 0 < nSigmas then
      .error (.doUsage "Can not specify number of sigmas for flat prior")
    else
      let prior := LogPrior.flat name min max
      if name ∈ st.analysisNames then
        .error (.doUsage ("Error in assigning " ++ priorType ++ " prior distribution to " ++ name))
      else if isNuisance then
        .ok { st with
                nuisance_parameters :=
                  st.nuisance_parameters ++ [(⟨name, min, max, priorType⟩ : ParameterData)]
                analysis_priors := st.analysis_priors ++ [(prior, isNuisance)] }
      else
        .ok { st with
                scan_parameters :=
                  st.scan_parameters ++ [(⟨name, min, max, priorType⟩ : ParameterData)]
                analysis_priors := st.analysis_priors ++ [(prior, isNuisance)] }
  else
    .error (.doUsage ("Unknown prior distribution: " ++ priorType))

/-- A stand-in for `std::numeric_limits<double>::max()`, the default
hard bound in case (a). -/
def dblMax : ℚ := (2 : ℚ) ^ 1024

/-- The `--scan`/`--nuisance` handler.  In cases (a) and (c) the sigma
count passes through `VerifiedRange<double>(0, 10, ·)` (throwing outside
`[0, 10]`) and a zero count is the `DoUsage` "number of sigmas: number
expected"; in case (b) `n_sigmas` stays 0.  `lower`, `central`, `upper`
are the three tokens the handler reads after a `gaussian`/`log-gamma`
prior-type token; for other prior types the source consumes no such
tokens and the values are unused. -/
def scanHandler (st : CommandLineState) (isNuisance : Bool) (name : String)
    (spec : ScanSpec) (priorType : String) (lower central upper : ℚ) :
    Except ParseError CommandLineState :=
  match spec with
  | .sigmasOnly n =>
    if n < 0 ∨ 10 < n then .error .verifiedRange
    else if n = 0 then .error (.doUsage "number of sigmas: number expected")
    else scanPrior st isNuisance name (-dblMax) dblMax n priorType lower central upper
  | .bounds mn mx =>
    scanPrior st isNuisance name mn mx 0 priorType lower central upper
  | .boundsSigmas mn mx n =>
    if n < 0 ∨ 10 < n then .error .verifiedRange
    else if n = 0 then .error (.doUsage "number of sigmas: number expected")
    else scanPrior st isNuisance name mn mx n priorType lower central upper

/-- One tokenised command-line option together with the value tokens its
handler consumes.  Payload notes: `scan`/`nuisance` carry the quantile
tokens read only for `gaussian`/`log-gamma`; `proposal` carries the
degrees-of-freedom token read only for `MultivariateStudentT`;
`goodnessOfFit`/`optimize` carry the optional braced point (empty when
absent); `seedTime` is `--seed time`, whose value comes from the clock. -/
inductive Arg where
  | scan (name : String) (spec : ScanSpec) (priorType : String) (lower central upper : ℚ)
  | nuisance (name : String) (spec : ScanSpec) (priorType : String) (lower central upper : ℚ)
  | chains (n : ℕ)
  | chunkSize (n : ℕ)
  | chunks (n : ℕ)
  | constraint (name : String)
  | debug
  | discrete (name : String) (values : List ℚ)
  | fix (name : String) (value : ℚ)
  | kinematics (name : String) (value : ℚ)
  | globalOption (name value : String)
  | goodnessOfFit (point : List ℚ)
  | massiveModeFinding (maxIter : ℕ)
  | noPrerun
  | observable (name : String) (min central max : ℚ)
  | optimize (point : List ℚ)
  | output (filename : String)
  | parallel (n : ℕ)
  | partition (p : Partition)
  | partitionIndex (i : ℕ)
  | prerunChainsPerPartition (n : ℕ)
  | prerunFindModes
  | prerunMax (n : ℕ)
  | prerunMin (n : ℕ)
  | prerunOnly
  | prerunUpdate (n : ℕ)
  | printArgs
  | priorAsProposal (name : String)
  | proposal (kind : String) (dof : ℚ)
  | resume (file : String)
  | seed (n : ℕ)
  | seedTime (clock : ℕ)
  | scaleReduction (value : ℚ)
  | storePrerun
  | storeObservablesAndProposals
deriving DecidableEq, Repr

/-- One iteration of the argument loop of `CommandLine::parse`: the
handler of a single option.  Each case mirrors the corresponding
`if ("--..." == argument)` block of the source in order. -/
def processArg (st : CommandLineState) : Arg → Except ParseError CommandLineState
  | .scan name spec priorType lower central upper =>
    scanHandler st false name spec priorType lower central upper
  | .nuisance name spec priorType lower central upper =>
    scanHandler st true name spec priorType lower central upper
  | .chains n => .ok { st with config := { st.config with number_of_chains := n } }
  | .chunkSize n => .ok { st with config := { st.config with chunk_size := n } }
  | .chunks n => .ok { st with config := { st.config with chunks := n } }
  | .constraint _ => .ok { st with constraints := st.constraints + 1 }
  | .debug => .ok st
  | .discrete name values =>
    let prior := LogPrior.discrete name values
    if name ∈ st.analysisNames then
      .error (.doUsage ("Unknown error in assigning discrete prior distribution to " ++ name))
    else
      .ok { st with analysis_priors := st.analysis_priors ++ [(prior, true)] }
  | .fix name value => .ok { st with fixed := st.fixed ++ [(name, value)] }
  | .kinematics name value => .ok { st with kinematics := st.kinematics ++ [(name, value)] }
  | .globalOption name value =>
    .ok { st with global_options := st.global_options ++ [(name, value)] }
  | .goodnessOfFit point =>
    .ok { st with goodness_of_fit := true, best_fit_point := st.best_fit_point ++ point }
  | .massiveModeFinding maxIter =>
    if maxIter = 0 then
      .error (.doUsage "Need to specify maximum number of Minuit iterations for massive mode finding")
    else
      .ok { st with massive_mode_finding := true, massive_maximum_iterations := maxIter }
  | .noPrerun => .ok { st with config := { st.config with need_prerun := false } }
  | .observable _ _ _ _ => .ok { st with inputs := st.inputs + 1, kinematics := [] }
  | .optimize point =>
    .ok { st with optimize := true, starting_point := st.starting_point ++ point }
  | .output filename => .ok { st with config := { st.config with output_file := filename } }
  | .parallel n => .ok { st with config := { st.config with parallelize := n ≠ 0 } }
  | .partition p =>
    .ok { st with config := { st.config with partitions := st.config.partitions ++ [p] } }
  | .partitionIndex i =>
    .ok { st with partition_index := some i,
                  config := { st.config with need_main_run := false, store_prerun := true } }
  | .prerunChainsPerPartition n =>
    .ok { st with config := { st.config with prerun_chains_per_partition := n } }
  | .prerunFindModes => .ok { st with config := { st.config with find_modes := true } }
  | .prerunMax n => .ok { st with config := { st.config with prerun_iterations_max := n } }
  | .prerunMin n => .ok { st with config := { st.config with prerun_iterations_min := n } }
  | .prerunOnly =>
    .ok { st with config :=
      { st.config with need_prerun := true, store_prerun := true, need_main_run := false } }
  | .prerunUpdate n =>
    .ok { st with config := { st.config with prerun_iterations_update := n } }
  | .printArgs => .error .aborted
  | .priorAsProposal name =>
    if name ∈ st.analysisNames then
      .ok { st with config := { st.config with
        block_proposal_parameters := st.config.block_proposal_parameters ++ [name] } }
    else
      .error (.doUsage ("Define parameter " ++ name ++ " and its prior before --prior-as-proposal"))
  | .proposal kind dof =>
    let st := { st with config := { st.config with proposal := kind } }
    if kind = "MultivariateStudentT" then
      if dof ≤ 0 then
        .error (.doUsage "No (or non-positive) degree of freedom for MultivariateStudentT specified")
      else
        .ok { st with config := { st.config with student_t_degrees_of_freedom := dof } }
    else
      .ok st
  | .resume file =>
    .ok { st with resume_file := file, config := { st.config with need_prerun := false } }
  | .seed n => .ok { st with config := { st.config with seed := n } }
  | .seedTime clock => .ok { st with config := { st.config with seed := clock } }
  | .scaleReduction value =>
    .ok { st with config := { st.config with scale_reduction := value } }
  | .storePrerun => .ok { st with config := { st.config with store_prerun := true } }
  | .storeObservablesAndProposals =>
    .ok { st with config := { st.config with store_observables_and_proposals := true } }

/-- The argument loop of `CommandLine::parse`: options are processed in
order; the first thrown error aborts parsing. -/
def parse (st : CommandLineState) : List Arg → Except ParseError CommandLineState
  | [] => .ok st
  | a :: rest =>
    match processArg st a with
    | .error e => .error e
    | .ok st' => parse st' rest

/-- The post-parse control flow of `main`: reject an input-less run;
the `--optimize` branch (an empty starting point is filled with one
prior draw per analysis parameter before the size check) returns before
any sampler exists; so does the standalone goodness-of-fit branch;
otherwise partition selection runs, the sampler is constructed, and
either massive mode finding or `sampler.run()` follows. -/
def mainAfterParse (st : CommandLineState) : Except MainError MainOutcome :=
  if st.inputs = 0 ∧ st.constraints = 0 then
    .error (.doUsage "No inputs, constraints nor build output specified")
  else if st.optimize then
    let startSize :=
      if st.starting_point.isEmpty then st.analysis_priors.length
      else st.starting_point.length
    if startSize ≠ st.analysis_priors.length then
      .error (.doUsage ("Starting point size of" ++ toString startSize ++
        " does not match with analysis size of " ++ toString st.analysis_priors.length))
    else
      .ok (.optimized (st.goodness_of_fit && st.best_fit_point.isEmpty))
  else if st.goodness_of_fit then
    .ok .goodnessOfFit
  else
    match selectPartitions st.partition_index st.config.partitions with
    | .error e => .error e
    | .ok ps =>
      if st.massive_mode_finding then .ok (.massiveModeFinding ps)
      else .ok (.sampled ps)

/-! ## Lemmas about the argument loop -/

theorem parse_append (st : CommandLineState) (xs ys : List Arg) :
    parse st (xs ++ ys) =
      match parse st xs with
      | .error e => .error e
      | .ok st' => parse st' ys := by
  induction xs generalizing st with
  | nil => simp [parse]
  | cons a xs ih =>
    simp only [List.cons_append, parse]
    cases processArg st a with
    | error e => rfl
    | ok st' => exact ih st'

theorem scanPrior_ok_config {st st' : CommandLineState} {isN : Bool} {name : String}
    {mn mx n : ℚ} {priorType : String} {l c u : ℚ}
    (h : scanPrior st isN name mn mx n priorType l c u = .ok st') :
    st'.config = st.config ∧ st'.partition_index = st.partition_index := by
  simp only [scanPrior] at h
  split_ifs at h <;>
    first
    | exact Except.noConfusion h
    | { rw [Except.ok.injEq] at h
        subst h
        exact ⟨rfl, rfl⟩ }

theorem scanHandler_ok_config {st st' : CommandLineState} {isN : Bool} {name : String}
    {spec : ScanSpec} {priorType : String} {l c u : ℚ}
    (h : scanHandler st isN name spec priorType l c u = .ok st') :
    st'.config = st.config ∧ st'.partition_index = st.partition_index := by
  cases spec with
  | sigmasOnly n =>
    simp only [scanHandler] at h
    split_ifs at h <;>
      first
      | exact Except.noConfusion h
      | exact scanPrior_ok_config h
  | bounds mn mx => exact scanPrior_ok_config h
  | boundsSigmas mn mx n =>
    simp only [scanHandler] at h
    split_ifs at h <;>
      first
      | exact Except.noConfusion h
      | exact scanPrior_ok_config h

/-- What a single successful option handler can and cannot do to the
flags the claims track: it never re-enables the main run, never turns
prerun storage back off, never clears a selected partition index, and —
for every option other than `--prerun-only` — never re-enables a
disabled prerun. -/
theorem processArg_ok_effects {st st' : CommandLineState} {a : Arg}
    (h : processArg st a = .ok st') :
    (st.config.need_main_run = false → st'.config.need_main_run = false) ∧
    (st.config.store_prerun = true → st'.config.store_prerun = true) ∧
    (st.partition_index.isSome → st'.partition_index.isSome) ∧
    (a ≠ Arg.prerunOnly → st.config.need_prerun = false → st'.config.need_prerun = false) := by
  cases a <;> simp only [processArg] at h <;>
    first
    | { have hc := scanHandler_ok_config h
        rw [hc.1, hc.2]
        exact ⟨id, id, id, fun _ => id⟩ }
    | exact Except.noConfusion h
    | { split_ifs at h <;>
        first
        | exact Except.noConfusion h
        | { rw [Except.ok.injEq] at h
            subst h
            refine ⟨fun hb => ?_, fun hb => ?_, fun hb => ?_, fun hne hb => ?_⟩ <;>
              first
              | exact absurd rfl hne
              | simpa using hb } }
    | { rw [Except.ok.injEq] at h
        subst h
        refine ⟨fun hb => ?_, fun hb => ?_, fun hb => ?_, fun hne hb => ?_⟩ <;>
          first
          | exact absurd rfl hne
          | simpa using hb }

theorem parse_ok_effects {st st' : CommandLineState} {args : List Arg}
    (h : parse st args = .ok st') :
    (st.config.need_main_run = false → st'.config.need_main_run = false) ∧
    (st.config.store_prerun = true → st'.config.store_prerun = true) ∧
    (st.partition_index.isSome → st'.partition_index.isSome) ∧
    (Arg.prerunOnly ∉ args → st.config.need_prerun = false → st'.config.need_prerun = false) := by
  induction args generalizing st with
  | nil =>
    simp only [parse, Except.ok.injEq] at h
    subst h
    exact ⟨id, id, id, fun _ => id⟩
  | cons a rest ih =>
    simp only [parse] at h
    cases hpa : processArg st a with
    | error e => rw [hpa] at h; exact absurd h (by simp)
    | ok st1 =>
      rw [hpa] at h
      have h1 := processArg_ok_effects hpa
      have h2 := ih h
      refine ⟨fun hm => h2.1 (h1.1 hm), fun hs => h2.2.1 (h1.2.1 hs),
        fun hp => h2.2.2.1 (h1.2.2.1 hp), fun hmem hpre => ?_⟩
      rw [List.mem_cons] at hmem
      push_neg at hmem
      exact h2.2.2.2 hmem.2 (h1.2.2.2 (Ne.symm hmem.1) hpre)

/-! ## Claims -/

/-- C1: for every non-empty declared partition list and every index `i`
within its range, the partition-selection block of `main` reduces the
configuration's partition list to exactly the singleton holding the
`i`-th declared list of (parameter name, min, max) triples, unchanged
in content and order — the list every subsequent chain is built from. -/
theorem partition_selection_picks_ith (partitions : List Partition) (i : ℕ)
    (hne : partitions ≠ []) (hi : i < partitions.length) :
    selectPartitions (some i) partitions = .ok [partitions.get ⟨i, hi⟩] := by
  simp only [selectPartitions]
  rw [if_neg (by simpa using hne), List.get?_eq_get hi]

/-- Witness for C1: two declared partitions, index 1 selects the second. -/
theorem partition_selection_picks_ith_witness :
    selectPartitions (some 1) [[⟨"x", 0, 1⟩], [⟨"y", 2, 3⟩]] =
      .ok [[(⟨"y", 2, 3⟩ : PartitionEntry)]] := by
  have h := partition_selection_picks_ith [[⟨"x", 0, 1⟩], [⟨"y", 2, 3⟩]] 1
    (by simp) (by simp)
  simpa using h

/-- C2: when a partition index is requested but zero partitions were
declared, `main` ends in the `DoUsage` (configuration) error — the
partition-selection block precedes the construction of the
`MarkovChainSampler`, so no sampler exists and no sampling starts. -/
theorem partition_index_without_partitions_usage_error (st : CommandLineState) (i : ℕ)
    (hin : ¬(st.inputs = 0 ∧ st.constraints = 0))
    (hopt : st.optimize = false) (hgof : st.goodness_of_fit = false)
    (hidx : st.partition_index = some i) (hparts : st.config.partitions = []) :
    mainAfterParse st =
      .error (.doUsage ("Can not select partition " ++ toString i ++ " from no partitions!")) := by
  simp [mainAfterParse, selectPartitions, hopt, hgof, hidx, hparts, hin]

/-- Witness for C2: one constraint, partition index 0, no partitions. -/
theorem partition_index_without_partitions_usage_error_witness :
    mainAfterParse { initialState with constraints := 1, partition_index := some 0 } =
      .error (.doUsage ("Can not select partition " ++ toString 0 ++ " from no partitions!")) := by
  exact partition_index_without_partitions_usage_error
    { initialState with constraints := 1, partition_index := some 0 } 0
    (by simp) rfl rfl rfl rfl

/-- A run with one constraint, one declared partition and the requested
partition index 1 — one past the end of the declared list. -/
def onePartitionBadIndexState : CommandLineState :=
  { initialState with
      constraints := 1
      partition_index := some 1
      config := { initialState.config with partitions := [[⟨"x", 0, 1⟩]] } }

/-- C3 fails as stated: with one declared partition and requested index
1, `main` fails with the out-of-range exception of `std::vector::at`
(caught only by `catch (...)` as an unknown exception), not with a
`DoUsage`/ConfigurationError. -/
theorem partition_index_out_of_range_not_usage_cex :
    mainAfterParse onePartitionBadIndexState = .error MainError.outOfRange := by
  rfl

/-- C3 amended: an out-of-range partition index on a non-empty declared
partition list is fatal and occurs before any sampling, but as the
generic out-of-range exception of `std::vector::at` (reported as an
unknown exception), not as a ConfigurationError/usage error. -/
theorem partition_index_out_of_range_aborts (st : CommandLineState) (i : ℕ)
    (hin : ¬(st.inputs = 0 ∧ st.constraints = 0))
    (hopt : st.optimize = false) (hgof : st.goodness_of_fit = false)
    (hidx : st.partition_index = some i)
    (hne : st.config.partitions ≠ []) (hi : st.config.partitions.length ≤ i) :
    mainAfterParse st = .error MainError.outOfRange := by
  simp only [mainAfterParse, hopt, hgof, hidx, if_neg hin, selectPartitions]
  rw [List.get?_eq_none.mpr hi]
  simp [hne]

/-- Witness for C3's amended claim: one partition, requested index 1. -/
theorem partition_index_out_of_range_aborts_witness :
    mainAfterParse onePartitionBadIndexState = .error MainError.outOfRange := by
  exact partition_index_out_of_range_aborts onePartitionBadIndexState 1
    (by simp [onePartitionBadIndexState]) rfl rfl rfl
    (by simp [onePartitionBadIndexState]) (by simp [onePartitionBadIndexState])

/-- C4: selecting the `MultivariateStudentT` proposal with
degrees-of-freedom `dof` fails with the usage (configuration) error
exactly when `dof ≤ 0`; for `dof > 0` the value is stored as
`student_t_degrees_of_freedom` and no error is raised here. -/
theorem studentT_dof_stored_iff_positive (st : CommandLineState) (dof : ℚ) :
    processArg st (.proposal "MultivariateStudentT" dof) =
      if dof ≤ 0 then
        .error (.doUsage
          "No (or non-positive) degree of freedom for MultivariateStudentT specified")
      else
        .ok { st with config :=
                { st.config with
                    proposal := "MultivariateStudentT"
                    student_t_degrees_of_freedom := dof } } := by
  simp only [processArg]
  split_ifs with h1 <;> rfl

/-- C5: a scan or nuisance parameter with hard bounds `[hmin, hmax]`, a
gaussian or log-gamma prior described by quantiles, and a sigma count
`0 < n ≤ 10` gets the recorded range
`[max(hmin, central − n·(central − lower)), min(hmax, central + n·(upper − central))]`
— the quantile-derived interval narrows and never widens the
user-supplied hard bounds. -/
theorem quantile_prior_narrows_hard_bounds (st : CommandLineState) (isN : Bool)
    (name : String) (hmin hmax n lower central upper : ℚ) (priorType : String)
    (hp : priorType = "gaussian" ∨ priorType = "log-gamma")
    (h0 : 0 < n) (h10 : n ≤ 10) (hfresh : name ∉ st.analysisNames) :
    ∃ st', scanHandler st isN name (.boundsSigmas hmin hmax n) priorType
        lower central upper = .ok st' ∧
      (if isN then st'.nuisance_parameters.getLast? else st'.scan_parameters.getLast?) =
        some ⟨name, Max.max hmin (central - n * (central - lower)),
                    Min.min hmax (central + n * (upper - central)), priorType⟩ ∧
      hmin ≤ Max.max hmin (central - n * (central - lower)) ∧
      Min.min hmax (central + n * (upper - central)) ≤ hmax := by
  have hn1 : ¬(n < 0 ∨ 10 < n) := by push_neg; exact ⟨h0.le, h10⟩
  have hn2 : n ≠ 0 := ne_of_gt h0
  cases isN with
  | false =>
    simp only [scanHandler, if_neg hn1, if_neg hn2, scanPrior, if_pos hp, if_pos h0,
      if_neg hfresh]
    exact ⟨_, rfl, by simp, le_max_left _ _, min_le_left _ _⟩
  | true =>
    simp only [scanHandler, if_neg hn1, if_neg hn2, scanPrior, if_pos hp, if_pos h0,
      if_neg hfresh]
    exact ⟨_, rfl, by simp, le_max_left _ _, min_le_left _ _⟩

/-- Witness for C5: hard bounds [0, 10], gaussian quantiles (3, 4, 6),
2 sigmas: the recorded range is [2, 8], inside the hard bounds. -/
theorem quantile_prior_narrows_hard_bounds_witness :
    ∃ st', scanHandler initialState false "m" (.boundsSigmas 0 10 2) "gaussian"
        3 4 6 = .ok st' ∧
      (if false then st'.nuisance_parameters.getLast? else st'.scan_parameters.getLast?) =
        some ⟨"m", Max.max 0 (4 - 2 * (4 - 3)), Min.min 10 (4 + 2 * (6 - 4)), "gaussian"⟩ ∧
      (0 : ℚ) ≤ Max.max 0 (4 - 2 * (4 - 3)) ∧
      Min.min 10 (4 + 2 * (6 - 4)) ≤ (10 : ℚ) := by
  exact quantile_prior_narrows_hard_bounds initialState false "m" 0 10 2 3 4 6 "gaussian"
    (Or.inl rfl) (by norm_num) (by norm_num)
    (by simp [CommandLineState.analysisNames, initialState])

/-- C6 fails as stated: after `--resume data.hdf5 --prerun-only` the
configuration has a resume path set but the prerun re-enabled, because
the `--prerun-only` handler runs after the `--resume` handler. -/
theorem resume_then_prerun_only_cex :
    (parse initialState [Arg.resume "data.hdf5", Arg.prerunOnly]).map
      (fun st => (st.resume_file, st.config.need_prerun)) = .ok ("data.hdf5", true) := by
  rfl

/-- C6 amended: supplying a resume path disables the prerun phase in
the resulting configuration — `need_prerun` is false after any parse in
which the resume option is not followed by a later `--prerun-only`
option (the only option that re-enables the prerun). -/
theorem resume_disables_prerun_unless_prerun_only
    (init st' : CommandLineState) (pre post : List Arg) (file : String)
    (hpost : Arg.prerunOnly ∉ post)
    (h : parse init (pre ++ Arg.resume file :: post) = .ok st') :
    st'.config.need_prerun = false := by
  rw [parse_append] at h
  cases hpre : parse init pre with
  | error e => rw [hpre] at h; exact Except.noConfusion h
  | ok st1 =>
    rw [hpre] at h
    simp only [parse, processArg] at h
    exact (parse_ok_effects h).2.2.2 hpost rfl

/-- Witness for C6's amended claim: a lone `--resume` leaves the prerun
disabled. -/
theorem resume_disables_prerun_unless_prerun_only_witness :
    ({ initialState with
        resume_file := "data.hdf5"
        config := { initialState.config with need_prerun := false } } :
      CommandLineState).config.need_prerun = false :=
  resume_disables_prerun_unless_prerun_only initialState _ [] [] "data.hdf5"
    (by simp) rfl

/-- C7: the prior kinds accepted for a continuous scan or nuisance
parameter form the closed set {gaussian, log-gamma, flat}: every other
prior-type token is rejected with the usage error naming the unknown
distribution, while each member of the set passes the prior-type
dispatch (a fresh parameter with in-range sigma count is accepted). -/
theorem prior_kinds_closed_set (st : CommandLineState) (isN : Bool) (name : String)
    (mn mx lower central upper : ℚ) (priorType : String) :
    (priorType ≠ "gaussian" → priorType ≠ "log-gamma" → priorType ≠ "flat" →
      scanHandler st isN name (.bounds mn mx) priorType lower central upper =
        .error (.doUsage ("Unknown prior distribution: " ++ priorType))) ∧
    ((priorType = "gaussian" ∨ priorType = "log-gamma" ∨ priorType = "flat") →
      name ∉ st.analysisNames →
      ∃ st', scanHandler st isN name (.bounds mn mx) priorType lower central upper =
        .ok st') := by
  constructor
  · intro h1 h2 h3
    simp [scanHandler, scanPrior, h1, h2, h3]
  · rintro (hp | hp | hp) hfresh <;> subst hp <;> cases isN <;>
      simp [scanHandler, scanPrior, hfresh]

/-- Witness for C7: `cauchy` is rejected as unknown; `flat` is accepted. -/
theorem prior_kinds_closed_set_witness :
    scanHandler initialState false "m" (.bounds 0 1) "cauchy" 0 0 0 =
      .error (.doUsage ("Unknown prior distribution: " ++ "cauchy")) ∧
    ∃ st', scanHandler initialState false "m" (.bounds 0 1) "flat" 0 0 0 = .ok st' := by
  constructor
  · exact (prior_kinds_closed_set initialState false "m" 0 1 0 0 0 "cauchy").1
      (by decide) (by decide) (by decide)
  · exact (prior_kinds_closed_set initialState false "m" 0 1 0 0 0 "flat").2
      (Or.inr (Or.inr rfl)) (by simp [CommandLineState.analysisNames, initialState])

/-- C8: with the optimize option enabled, `main` only ever ends in the
optimizer outcome (optionally running the goodness-of-fit follow-up at
the found mode) or a usage error; it never constructs the
`MarkovChainSampler`, and when the (possibly prior-sampled) starting
point has the analysis dimension it returns success with the optimizer
outcome. -/
theorem optimize_skips_sampler (st : CommandLineState) (hopt : st.optimize = true) :
    (∀ o, mainAfterParse st = .ok o →
      o.constructsSampler = false ∧ ∃ b, o = MainOutcome.optimized b) ∧
    (¬(st.inputs = 0 ∧ st.constraints = 0) →
      (st.starting_point = [] ∨ st.starting_point.length = st.analysis_priors.length) →
      mainAfterParse st =
        .ok (.optimized (st.goodness_of_fit && st.best_fit_point.isEmpty))) := by
  constructor
  · intro o ho
    simp only [mainAfterParse] at ho
    split_ifs at ho <;>
      first
      | exact Except.noConfusion ho
      | exact absurd hopt ‹¬st.optimize = true›
      | { rw [Except.ok.injEq] at ho
          subst ho
          exact ⟨rfl, _, rfl⟩ }
  · intro hin hsp
    have hsize : (if st.starting_point.isEmpty = true then st.analysis_priors.length
        else st.starting_point.length) = st.analysis_priors.length := by
      cases hsp with
      | inl h => simp [h]
      | inr h => by_cases he : st.starting_point.isEmpty = true <;> simp [he, h]
    simp only [mainAfterParse, if_neg hin, hopt, if_true]
    rw [if_neg (not_ne_iff.mpr hsize)]

/-- A run with the optimize option and one constraint. -/
def optimizeRunState : CommandLineState :=
  { initialState with optimize := true, constraints := 1 }

/-- Witness for C8: the optimize run ends in the optimizer outcome. -/
theorem optimize_skips_sampler_witness :
    mainAfterParse optimizeRunState =
      .ok (.optimized (optimizeRunState.goodness_of_fit &&
        optimizeRunState.best_fit_point.isEmpty)) :=
  (optimize_skips_sampler optimizeRunState rfl).2
    (by simp [optimizeRunState, initialState]) (Or.inl rfl)

/-- C9 fails in its exclusivity part: the `--prerun-only` option — not a
partition-index request — also applies the same two effects together,
disabling the main run and enabling prerun storage. -/
theorem prerun_only_same_effects_cex :
    (processArg initialState Arg.prerunOnly).map
      (fun st => (st.config.need_main_run, st.config.store_prerun)) = .ok (false, true) ∧
    Arg.prerunOnly ≠ Arg.partitionIndex 0 := by
  exact ⟨rfl, by decide⟩

/-- C9 amended: requesting a partition index disables the main sampling
run and enables persisting of prerun data (effects that `--prerun-only`
also applies together), and these survive to the end of parsing: after
any successful parse whose arguments contain `--partition-index i`, the
configuration has `need_main_run = false`, `store_prerun = true` and a
selected partition index, so such an invocation only produces burn-in
output. -/
theorem partition_index_disables_main_run_stores_prerun
    (init st' : CommandLineState) (args : List Arg) (i : ℕ)
    (hmem : Arg.partitionIndex i ∈ args) (h : parse init args = .ok st') :
    st'.config.need_main_run = false ∧ st'.config.store_prerun = true ∧
      st'.partition_index.isSome := by
  obtain ⟨pre, post, rfl⟩ := List.append_of_mem hmem
  rw [parse_append] at h
  cases hpre : parse init pre with
  | error e => rw [hpre] at h; exact Except.noConfusion h
  | ok st1 =>
    rw [hpre] at h
    simp only [parse, processArg] at h
    have he := parse_ok_effects h
    exact ⟨he.1 rfl, he.2.1 rfl, he.2.2.1 rfl⟩

/-- The state a lone `--partition-index 2` produces. -/
def partitionIndexRunState : CommandLineState :=
  { initialState with
      partition_index := some 2
      config := { initialState.config with
                    need_main_run := false
                    store_prerun := true } }

/-- Witness for C9's amended claim: parsing `--partition-index 2`. -/
theorem partition_index_disables_main_run_stores_prerun_witness :
    partitionIndexRunState.config.need_main_run = false ∧
    partitionIndexRunState.config.store_prerun = true ∧
    partitionIndexRunState.partition_index.isSome :=
  partition_index_disables_main_run_stores_prerun initialState partitionIndexRunState
    [Arg.partitionIndex 2] 2 (by simp) rfl

/-- C10: a flat prior combined with a positive (in-range) number of
sigmas is rejected with the usage error, in both the sigmas-only and the
bounds-plus-sigmas forms of the scan/nuisance option. -/
theorem flat_prior_with_sigmas_usage_error (st : CommandLineState) (isN : Bool)
    (name : String) (mn mx n lower central upper : ℚ)
    (h0 : 0 < n) (h10 : n ≤ 10) :
    scanHandler st isN name (.boundsSigmas mn mx n) "flat" lower central upper =
      .error (.doUsage "Can not specify number of sigmas for flat prior") ∧
    scanHandler st isN name (.sigmasOnly n) "flat" lower central upper =
      .error (.doUsage "Can not specify number of sigmas for flat prior") := by
  have hn1 : ¬(n < 0 ∨ 10 < n) := by push_neg; exact ⟨h0.le, h10⟩
  have hn2 : n ≠ 0 := ne_of_gt h0
  constructor <;> simp [scanHandler, scanPrior, if_neg hn1, hn2, h0]

/-- Witness for C10 at two sigmas. -/
theorem flat_prior_with_sigmas_usage_error_witness :
    scanHandler initialState false "m" (.boundsSigmas 0 1 2) "flat" 0 0 0 =
      .error (.doUsage "Can not specify number of sigmas for flat prior") ∧
    scanHandler initialState false "m" (.sigmasOnly 2) "flat" 0 0 0 =
      .error (.doUsage "Can not specify number of sigmas for flat prior") :=
  flat_prior_with_sigmas_usage_error initialState false "m" 0 1 2 0 0 0
    (by norm_num) (by norm_num)
